import Mathlib

/-!
Shallow embedding of the bluetooth Stream Deck plugin
(`src/bluetooth-python/src/stream_deck.py` and
`src/bluetooth-python/src/bluetooth.py`) and proofs about it.

JSON values decoded by `json.loads` are modelled by the inductive `Json`;
Python dictionaries become association lists with distinct keys, and
`dict.get` / `dict[...]` become `lookupField`.  The process-wide OS power
state accessed through `IOBluetoothPreferenceGet/SetControllerPowerState`
is modelled as an `Int` threaded through the functions.  Python exceptions
are modelled by `Except` / an `Option PyError` component: an operation that
raises returns the state reached at the point of the raise together with
the error.  Calls into the device capability made by the controller are
recorded in a ghost `List CapCall` so that claims about how often the
capability is invoked can be stated.
-/

namespace BTPlugin

/-- JSON values as produced by `json.loads`: `null`, strings, numbers and
objects (Python dicts, embedded as association lists with distinct keys). -/
inductive Json where
  | null
  | str (s : String)
  | num (n : Int)
  | obj (kvs : List (String × Json))
deriving Repr

mutual

def Json.decEq : (a b : Json) → Decidable (a = b)
  | .null, .null => .isTrue rfl
  | .str a, .str b =>
    if h : a = b then .isTrue (by rw [h]) else .isFalse (by simp [h])
  | .num a, .num b =>
    if h : a = b then .isTrue (by rw [h]) else .isFalse (by simp [h])
  | .obj a, .obj b =>
    match Json.decEqFields a b with
    | .isTrue h => .isTrue (by rw [h])
    | .isFalse h => .isFalse (by simp [h])
  | .null, .str _ => .isFalse (fun h => Json.noConfusion h)
  | .null, .num _ => .isFalse (fun h => Json.noConfusion h)
  | .null, .obj _ => .isFalse (fun h => Json.noConfusion h)
  | .str _, .null => .isFalse (fun h => Json.noConfusion h)
  | .str _, .num _ => .isFalse (fun h => Json.noConfusion h)
  | .str _, .obj _ => .isFalse (fun h => Json.noConfusion h)
  | .num _, .null => .isFalse (fun h => Json.noConfusion h)
  | .num _, .str _ => .isFalse (fun h => Json.noConfusion h)
  | .num _, .obj _ => .isFalse (fun h => Json.noConfusion h)
  | .obj _, .null => .isFalse (fun h => Json.noConfusion h)
  | .obj _, .str _ => .isFalse (fun h => Json.noConfusion h)
  | .obj _, .num _ => .isFalse (fun h => Json.noConfusion h)

def Json.decEqFields : (a b : List (String × Json)) → Decidable (a = b)
  | [], [] => .isTrue rfl
  | [], _ :: _ => .isFalse (fun h => List.noConfusion h)
  | _ :: _, [] => .isFalse (fun h => List.noConfusion h)
  | (k, v) :: r, (k2, v2) :: r2 =>
    if hk : k = k2 then
      match Json.decEq v v2 with
      | .isTrue hv =>
        match Json.decEqFields r r2 with
        | .isTrue hr => .isTrue (by rw [hk, hv, hr])
        | .isFalse hr => .isFalse (by simp [hr])
      | .isFalse hv => .isFalse (by simp [hv])
    else .isFalse (by simp [hk])

end

instance : DecidableEq Json := Json.decEq

/-- Python dict lookup on the association-list embedding of a dict
(`payload.get(key)` when the result is fed to an `Option`,
`payload[key]` when a `none` result is turned into a `KeyError`). -/
def lookupField : List (String × Json) → String → Option Json
  | [], _ => none
  | (k, v) :: rest, key => if k = key then some v else lookupField rest key

/-- Python exceptions that the plugin code can raise while processing one
inbound message. -/
inductive PyError where
  | jsonDecodeError
  | attributeError
  | assertionError
  | keyError (key : String)
  | typeError
deriving DecidableEq, Repr

/-- Ghost record of one call made into the device capability
(`bluetooth.get_bluetooth_state` / `bluetooth.toggle_bluetooth_state`). -/
inductive CapCall where
  | getState
  | toggleState
deriving DecidableEq, Repr

/-- `IOBluetoothPreferenceGetControllerPowerState`: reads the OS power
state (`bluetooth.py`, `_bs_getter`). -/
def _bs_getter (facility : Int) : Int := facility

/-- `IOBluetoothPreferenceSetControllerPowerState`: writes the OS power
state (`bluetooth.py`, `_bs_setter`); returns the new facility state. -/
def _bs_setter (_facility : Int) (new : Int) : Int := new

/-- `bluetooth._next_state`. -/
def _next_state (current : Int) : Int := if current = 1 then 0 else 1

/-- `bluetooth.toggle_bluetooth_state`: reads the current state, writes the
flipped state, and returns it.  Result: (returned value, new facility state). -/
def toggle_bluetooth_state (facility : Int) : Int × Int :=
  let current := _bs_getter facility
  let new := _next_state current
  (new, _bs_setter facility new)

/-- `bluetooth.get_bluetooth_state`. -/
def get_bluetooth_state (facility : Int) : Int := _bs_getter facility

/-- `_BluetoothMessageController._handle_key_up`: toggles and discards the
returned value; only the facility state change remains. -/
def _handle_key_up (facility : Int) : Int :=
  (toggle_bluetooth_state facility).2

/-- `_BluetoothMessageController._handle_will_appear`: builds the
`setState` report from the current device state. -/
def _handle_will_appear (context : Json) (facility : Int) : Json :=
  .obj [("event", .str "setState"), ("context", context),
        ("payload", .obj [("state", .num (get_bluetooth_state facility))])]

/-- `_BluetoothMessageController.handle_event`.  `payload["event"]` raises
`KeyError` when the key is missing and `TypeError` when the payload is not
a dict.  Result: (optional reply, new facility state, capability calls). -/
def handle_event (payload : Json) (context : Json) (facility : Int) :
    Except PyError (Option Json × Int × List CapCall) :=
  match payload with
  | .obj kvs =>
    match lookupField kvs "event" with
    | none => .error (.keyError "event")
    | some event_type =>
      if event_type = Json.str "keyUp" then
        .ok (none, _handle_key_up facility, [.toggleState])
      else if event_type = Json.str "willAppear" then
        .ok (some (_handle_will_appear context facility), facility, [.getState])
      else
        .ok (none, facility, [])
  | _ => .error .typeError

/-- State owned by `StreamDeckExchange`, together with the process-wide
device facility state and the list of messages sent over the websocket. -/
structure ExchangeState where
  context : Option Json
  facility : Int
  sent : List Json
deriving DecidableEq, Repr

/-- One inbound websocket frame: either bytes/text that fail to decode or
parse as JSON (`json.loads` raises), or a frame that parses to a value. -/
inductive WireMessage where
  | malformed
  | parsed (payload : Json)
deriving DecidableEq, Repr

/-- `StreamDeckExchange._maybe_store_context`: `payload.get("context")`
yields `None` both for a missing key and for an explicit JSON `null`; the
stored context is replaced only by a present, non-null, different value.
A non-dict payload raises `AttributeError` (`.get` on a non-dict). -/
def _maybe_store_context (payload : Json) (stored : Option Json) :
    Except PyError (Option Json) :=
  match payload with
  | .obj kvs =>
    match lookupField kvs "context" with
    | some context =>
      if context ≠ Json.null ∧ some context ≠ stored then .ok (some context)
      else .ok stored
    | none => .ok stored
  | _ => .error .attributeError

/-- `StreamDeckExchange._process_inbound_message`: parse, store the
context, assert a context exists, dispatch to the controller, and send the
reply if one is produced.  A raised exception leaves behind the state
reached so far (in particular a context stored before the raise persists)
and is reported in the second component. -/
def _process_inbound_message (message : WireMessage) (s : ExchangeState) :
    ExchangeState × Option PyError :=
  match message with
  | .malformed => (s, some .jsonDecodeError)
  | .parsed parsed =>
    match _maybe_store_context parsed s.context with
    | .error e => (s, some e)
    | .ok ctx =>
      let s1 : ExchangeState := { s with context := ctx }
      match ctx with
      | none => (s1, some .assertionError)
      | some context =>
        match handle_event parsed context s1.facility with
        | .error e => (s1, some e)
        | .ok (reply, facility2, _calls) =>
          let s2 : ExchangeState := { s1 with facility := facility2 }
          match reply with
          | some r => ({ s2 with sent := s2.sent ++ [r] }, none)
          | none => (s2, none)

/-- `StreamDeckExchange._message_receive_loop`: processes inbound frames
one at a time; any exception from one message is caught and logged and
the loop moves on to the next frame. -/
def _message_receive_loop (messages : List WireMessage) (s : ExchangeState) :
    ExchangeState :=
  messages.foldl (fun st m => (_process_inbound_message m st).1) s

/-- The parse of the literal `'{"event": "willAppear"}'` dispatched by
`notify_state_change`. -/
def willAppearLiteral : Json := .obj [("event", .str "willAppear")]

/-- `StreamDeckExchange.notify_state_change`: dispatches a synthesized
`willAppear` event through `_process_inbound_message`; any exception
propagates to the caller (nothing catches it here). -/
def notify_state_change (s : ExchangeState) : ExchangeState × Option PyError :=
  _process_inbound_message (.parsed willAppearLiteral) s

/-- Behaviour of the transport during one run of `start`: whether the
connect succeeds, whether the registration send succeeds, the inbound
frames delivered by the iterator, and whether the iterator finally raises
a transport error (rather than ending normally). -/
structure TransportScript where
  connectOk : Bool
  regSendOk : Bool
  messages : List WireMessage
  transportFails : Bool
deriving DecidableEq, Repr

/-- Outcome of one run of `StreamDeckExchange.start`: whether the
connection was established, whether it was closed on return, whether an
exception propagated out of `start`, and the final exchange state. -/
structure StartResult where
  connected : Bool
  closed : Bool
  raised : Bool
  final : ExchangeState
deriving DecidableEq, Repr

/-- The registration payload `{"event": register_event, "uuid": plugin_uuid}`. -/
def registrationMessage (register_event plugin_uuid : String) : Json :=
  .obj [("event", .str register_event), ("uuid", .str plugin_uuid)]

/-- `StreamDeckExchange.start`: connect, send the registration message,
then run the receive loop inside `try ... finally websocket.close()`.
The registration send happens before the `try` block, so a failure there
propagates without reaching the `finally` close.  The loop body swallows
per-message errors, so only a transport failure ends the loop; either way
the `finally` closes the connection. -/
def start (script : TransportScript) (register_event plugin_uuid : String)
    (s : ExchangeState) : StartResult :=
  if ¬ script.connectOk then
    { connected := false, closed := false, raised := true, final := s }
  else if ¬ script.regSendOk then
    { connected := true, closed := false, raised := true, final := s }
  else
    let s1 : ExchangeState :=
      { s with sent := s.sent ++ [registrationMessage register_event plugin_uuid] }
    let s2 := _message_receive_loop script.messages s1
    { connected := true, closed := true, raised := script.transportFails, final := s2 }

/-- The fresh exchange state of `StreamDeckExchange.__init__`: no context
stored, nothing sent; the ambient facility state is a parameter. -/
def streamDeckExchangeInit (facility : Int) : ExchangeState :=
  { context := none, facility := facility, sent := [] }

/-! Helper lemmas shared by the claim theorems. -/

/-- On a dict payload `_maybe_store_context` never raises, and it never
replaces an established context by `none`. -/
theorem maybe_store_ok_isSome (p : Json) (stored ctx : Option Json)
    (hok : _maybe_store_context p stored = .ok ctx) (h : stored.isSome) :
    ctx.isSome := by
  cases p with
  | obj kvs =>
    rcases hl : lookupField kvs "context" with _ | c
    · simp [_maybe_store_context, hl] at hok
      simp [← hok, h]
    · simp only [_maybe_store_context, hl] at hok
      split at hok
      all_goals injection hok with hok
      · rw [← hok]; simp
      · rw [← hok]; exact h
  | null => simp [_maybe_store_context] at hok
  | str a => simp [_maybe_store_context] at hok
  | num n => simp [_maybe_store_context] at hok

/-- A message whose processing raises has produced no reply and has not
touched the device facility; only the stored context may have changed. -/
theorem process_error_conservative (m : WireMessage) (s : ExchangeState)
    (h : ((_process_inbound_message m s).2).isSome) :
    (_process_inbound_message m s).1.sent = s.sent ∧
    (_process_inbound_message m s).1.facility = s.facility := by
  cases m with
  | malformed => exact ⟨rfl, rfl⟩
  | parsed p =>
    rcases hms : _maybe_store_context p s.context with e | ctx
    · simp [_process_inbound_message, hms]
    · cases ctx with
      | none => simp [_process_inbound_message, hms]
      | some context =>
        rcases hhe : handle_event p context s.facility with e | res
        · simp [_process_inbound_message, hms, hhe]
        · obtain ⟨reply, facility2, calls⟩ := res
          cases reply with
          | some r => simp [_process_inbound_message, hms, hhe] at h
          | none => simp [_process_inbound_message, hms, hhe] at h

/-- Processing a dict message whose `event` is `willAppear` and whose
`context` is a (non-null) string `c` stores `c` and emits the `setState`
report built from `c` and the current device state. -/
theorem process_obj_willAppear (kvs : List (String × Json)) (c : String)
    (s : ExchangeState)
    (hev : lookupField kvs "event" = some (.str "willAppear"))
    (hctx : lookupField kvs "context" = some (.str c)) :
    _process_inbound_message (.parsed (.obj kvs)) s =
      ({ context := some (.str c), facility := s.facility,
         sent := s.sent ++ [_handle_will_appear (.str c) s.facility] }, none) := by
  obtain ⟨ctx0, fac, sentList⟩ := s
  by_cases h : some (Json.str c) = ctx0
  · simp [_process_inbound_message, _maybe_store_context, hctx, hev, handle_event, ← h]
  · simp [_process_inbound_message, _maybe_store_context, hctx, hev, handle_event, h]

/-- Processing one message never changes the context from an established
value back to `none`. -/
theorem process_preserves_context (m : WireMessage) (s : ExchangeState)
    (h : s.context.isSome) :
    ((_process_inbound_message m s).1).context.isSome := by
  cases m with
  | malformed => exact h
  | parsed p =>
    rcases hms : _maybe_store_context p s.context with e | ctx
    · simpa [_process_inbound_message, hms] using h
    · have hctx : ctx.isSome := maybe_store_ok_isSome p s.context ctx hms h
      cases ctx with
      | none => simp at hctx
      | some context =>
        rcases hhe : handle_event p context s.facility with e | res
        · simp [_process_inbound_message, hms, hhe]
        · obtain ⟨reply, facility2, calls⟩ := res
          cases reply with
          | some r => simp [_process_inbound_message, hms, hhe]
          | none => simp [_process_inbound_message, hms, hhe]

/-- The receive loop never loses an established context. -/
theorem loop_preserves_context (messages : List WireMessage)
    (s : ExchangeState) (h : s.context.isSome) :
    (_message_receive_loop messages s).context.isSome := by
  induction messages generalizing s with
  | nil => exact h
  | cons m rest ih =>
    exact ih _ (process_preserves_context m s h)

/-! Claim theorems. -/

/-- C1: every inbound event whose `event` tag is `willAppear`, dispatched
with session context `C`, makes `handle_event` return a reply equal to
`{event: "setState", context: C, payload: {state: s}}` where `s` is
exactly the value `get_bluetooth_state` returns at that call; the device
state is read (one `getState` call) and left unchanged. -/
theorem claim_C1 (kvs : List (String × Json)) (context : Json) (facility : Int)
    (h : lookupField kvs "event" = some (.str "willAppear")) :
    handle_event (.obj kvs) context facility =
      .ok (some (.obj [("event", .str "setState"), ("context", context),
        ("payload", .obj [("state", .num (get_bluetooth_state facility))])]),
        facility, [.getState]) := by
  simp [handle_event, h, _handle_will_appear]

theorem claim_C1_witness :
    handle_event (.obj [("event", .str "willAppear")]) (.str "ctx") 1 =
      .ok (some (.obj [("event", .str "setState"), ("context", .str "ctx"),
        ("payload", .obj [("state", .num (get_bluetooth_state 1))])]),
        1, [.getState]) :=
  claim_C1 [("event", .str "willAppear")] (.str "ctx") 1 (by decide)

/-- C2: every inbound event whose `event` tag is `keyUp` makes
`handle_event` return no reply, with exactly one `toggleState` call into
the device capability (and the facility state updated accordingly). -/
theorem claim_C2 (kvs : List (String × Json)) (context : Json) (facility : Int)
    (h : lookupField kvs "event" = some (.str "keyUp")) :
    handle_event (.obj kvs) context facility =
      .ok (none, _handle_key_up facility, [.toggleState]) := by
  simp [handle_event, h]

theorem claim_C2_witness :
    handle_event (.obj [("event", .str "keyUp")]) (.str "ctx") 1 =
      .ok (none, _handle_key_up 1, [.toggleState]) :=
  claim_C2 [("event", .str "keyUp")] (.str "ctx") 1 (by decide)

/-- C3: every inbound event carrying an `event` tag outside
`{keyUp, willAppear}` makes `handle_event` return no reply, make no call
into the device capability, and leave the facility state unchanged. -/
theorem claim_C3 (kvs : List (String × Json)) (ev context : Json)
    (facility : Int)
    (h : lookupField kvs "event" = some ev)
    (hk : ev ≠ .str "keyUp") (hw : ev ≠ .str "willAppear") :
    handle_event (.obj kvs) context facility = .ok (none, facility, []) := by
  simp [handle_event, h, hk, hw]

theorem claim_C3_witness :
    handle_event (.obj [("event", .str "didReceiveSettings")]) (.str "c") 0 =
      .ok (none, 0, []) :=
  claim_C3 [("event", .str "didReceiveSettings")] (.str "didReceiveSettings")
    (.str "c") 0 (by decide) (by decide) (by decide)

/-- C8: for a current device state in `{0, 1}`,
`toggle_bluetooth_state` writes the flipped state `1 - s` to the facility
and returns that same new state. -/
theorem claim_C8 (s : Int) (h : s = 0 ∨ s = 1) :
    toggle_bluetooth_state s = (1 - s, 1 - s) := by
  rcases h with rfl | rfl <;> decide

theorem claim_C8_witness : toggle_bluetooth_state 1 = (1 - 1, 1 - 1) :=
  claim_C8 1 (Or.inr rfl)

/-- C9: for every payload dict with no `event` key, `handle_event` raises
`KeyError` (so no capability call and no reply), and an inbound message
with such a payload is a message-local error: processing it reports an
error and sends nothing. -/
theorem claim_C9 (kvs : List (String × Json)) (context : Json)
    (facility : Int) (s : ExchangeState)
    (h : lookupField kvs "event" = none) :
    handle_event (.obj kvs) context facility = .error (.keyError "event") ∧
    ((_process_inbound_message (.parsed (.obj kvs)) s).2.isSome ∧
     (_process_inbound_message (.parsed (.obj kvs)) s).1.sent = s.sent) := by
  have hhe : ∀ ctx2 fac2, handle_event (.obj kvs) ctx2 fac2 =
      .error (.keyError "event") := by
    intro ctx2 fac2
    simp [handle_event, h]
  refine ⟨hhe context facility, ?_, ?_⟩
  · rcases hms : _maybe_store_context (.obj kvs) s.context with e | ctx
    · simp [_process_inbound_message, hms]
    · cases ctx with
      | none => simp [_process_inbound_message, hms]
      | some context2 => simp [_process_inbound_message, hms, hhe context2 s.facility]
  · rcases hms : _maybe_store_context (.obj kvs) s.context with e | ctx
    · simp [_process_inbound_message, hms]
    · cases ctx with
      | none => simp [_process_inbound_message, hms]
      | some context2 => simp [_process_inbound_message, hms, hhe context2 s.facility]

/-- C4 as stated is false: the counterexample runs `notify_state_change`
on the fresh exchange state, where no context has been established, and
shows that it reports an error (the `assert self._context is not None`
raises `AssertionError`) instead of being a silent no-op. -/
theorem claim_C4_counterexample :
    (notify_state_change (streamDeckExchangeInit 0)).2 ≠ none := by decide

/-- C4 (amended): calling `notify_state_change` with no established
session context raises an `AssertionError` (so it is not silent) and
sends no outbound message, leaving the state unchanged; with an
established context it dispatches the synthesized `willAppear` event
using the stored context and emits the corresponding `setState` report. -/
theorem claim_C4_amended (s : ExchangeState) :
    (s.context = none → notify_state_change s = (s, some .assertionError)) ∧
    (∀ c : Json, s.context = some c →
      notify_state_change s =
        ({ s with sent := s.sent ++ [_handle_will_appear c s.facility] },
         none)) := by
  obtain ⟨ctx0, fac, sentList⟩ := s
  constructor
  · intro h
    subst h
    simp [notify_state_change, _process_inbound_message, _maybe_store_context,
      willAppearLiteral, lookupField]
  · intro c h
    subst h
    simp [notify_state_change, _process_inbound_message, _maybe_store_context,
      willAppearLiteral, lookupField, handle_event]

theorem claim_C4_witness :
    notify_state_change
        { context := some (.str "abc"), facility := 1, sent := [] } =
      ({ context := some (.str "abc"), facility := 1,
         sent := [_handle_will_appear (.str "abc") 1] }, none) := by
  have h := (claim_C4_amended
      { context := some (.str "abc"), facility := 1, sent := [] }).2
      (.str "abc") rfl
  simpa using h

/-- The parse of a well-formed `willAppear` frame carrying a string
context, `'{"event": "willAppear", "context": c}'`. -/
def willAppearMsg (c : String) : Json :=
  .obj [("event", .str "willAppear"), ("context", .str c)]

/-- C5: a message whose processing raises produces no reply, and the
receive loop keeps going: after the failing message and arbitrarily many
further messages, a well-formed `willAppear` frame is still processed and
its `setState` reply is emitted (appended to the sent messages). -/
theorem claim_C5 (s : ExchangeState) (bad : WireMessage)
    (mid : List WireMessage) (c : String)
    (hbad : ((_process_inbound_message bad s).2).isSome) :
    (_process_inbound_message bad s).1.sent = s.sent ∧
    _message_receive_loop (bad :: (mid ++ [.parsed (willAppearMsg c)])) s =
      { context := some (.str c),
        facility := (_message_receive_loop mid
          (_process_inbound_message bad s).1).facility,
        sent := (_message_receive_loop mid
            (_process_inbound_message bad s).1).sent
          ++ [_handle_will_appear (.str c)
            (_message_receive_loop mid
              (_process_inbound_message bad s).1).facility] } := by
  refine ⟨(process_error_conservative bad s hbad).1, ?_⟩
  have key : ∀ t : ExchangeState,
      _process_inbound_message (.parsed (willAppearMsg c)) t =
        ({ context := some (.str c), facility := t.facility,
           sent := t.sent ++ [_handle_will_appear (.str c) t.facility] },
         none) := by
    intro t
    refine process_obj_willAppear _ c t ?_ ?_ <;> simp [lookupField]
  have h1 : _message_receive_loop
      (bad :: (mid ++ [.parsed (willAppearMsg c)])) s =
      (_process_inbound_message (.parsed (willAppearMsg c))
        (_message_receive_loop mid (_process_inbound_message bad s).1)).1 := by
    simp [_message_receive_loop, List.foldl_append]
  rw [h1, key]

theorem claim_C5_witness :
    ((_process_inbound_message .malformed (streamDeckExchangeInit 1)).2).isSome ∧
    _message_receive_loop [.malformed, .parsed (willAppearMsg "abc")]
        (streamDeckExchangeInit 1) =
      { context := some (.str "abc"), facility := 1,
        sent := [_handle_will_appear (.str "abc") 1] } := by
  have h := claim_C5 (streamDeckExchangeInit 1) .malformed [] "abc" (by decide)
  refine ⟨by decide, ?_⟩
  simpa [streamDeckExchangeInit, _message_receive_loop,
    _process_inbound_message] using h.2

/-- C6 as stated is false: in this terminating execution of `start` the
connection is established and the registration send then fails, and the
websocket is left open (the registration send happens before the
`try`/`finally` that closes the connection). -/
theorem claim_C6_counterexample :
    (start { connectOk := true, regSendOk := false, messages := [],
             transportFails := false } "registerPlugin" "uuid123"
        (streamDeckExchangeInit 0)).connected = true ∧
    (start { connectOk := true, regSendOk := false, messages := [],
             transportFails := false } "registerPlugin" "uuid123"
        (streamDeckExchangeInit 0)).closed = false := by decide

/-- C6 (amended): once the connection and the registration send both
succeed, `start` closes the connection on every exit path of the receive
loop (normal end or transport failure); if the registration send fails,
the failure propagates out of `start` with the connection left open. -/
theorem claim_C6_amended (script : TransportScript)
    (register_event plugin_uuid : String) (s : ExchangeState)
    (hc : script.connectOk = true) :
    (script.regSendOk = true →
      (start script register_event plugin_uuid s).closed = true) ∧
    (script.regSendOk = false →
      (start script register_event plugin_uuid s).closed = false ∧
      (start script register_event plugin_uuid s).raised = true) := by
  constructor
  · intro hr; simp [start, hc, hr]
  · intro hr; simp [start, hc, hr]

theorem claim_C6_witness :
    (start { connectOk := true, regSendOk := true, messages := [.malformed],
             transportFails := true } "registerPlugin" "uuid123"
        (streamDeckExchangeInit 0)).closed = true :=
  (claim_C6_amended { connectOk := true, regSendOk := true,
                      messages := [.malformed], transportFails := true }
    "registerPlugin" "uuid123" (streamDeckExchangeInit 0) rfl).1 rfl

/-- C7: a message carrying a (string) `context` value different from the
stored one replaces the stored context; a message carrying no `context`,
or the stored value again, leaves it unchanged (idempotent update); and
the replacement happens before dispatch: a `willAppear` frame carrying a
new context is answered with a `setState` reply built from that new
context. -/
theorem claim_C7 (kvs : List (String × Json)) (stored : Option Json)
    (c : String) (s : ExchangeState) :
    (lookupField kvs "context" = some (.str c) →
      some (Json.str c) ≠ stored →
      _maybe_store_context (.obj kvs) stored = .ok (some (.str c))) ∧
    (lookupField kvs "context" = none →
      _maybe_store_context (.obj kvs) stored = .ok stored) ∧
    (lookupField kvs "context" = some (.str c) → stored = some (.str c) →
      _maybe_store_context (.obj kvs) stored = .ok stored) ∧
    (lookupField kvs "context" = some (.str c) →
      lookupField kvs "event" = some (.str "willAppear") →
      _process_inbound_message (.parsed (.obj kvs)) s =
        ({ context := some (.str c), facility := s.facility,
           sent := s.sent ++ [_handle_will_appear (.str c) s.facility] },
         none)) := by
  refine ⟨?_, ?_, ?_, ?_⟩
  · intro hl hne
    simp [_maybe_store_context, hl, hne]
  · intro hl
    simp [_maybe_store_context, hl]
  · intro hl heq
    simp [_maybe_store_context, hl, heq]
  · intro hl hev
    exact process_obj_willAppear kvs c s hev hl

theorem claim_C7_witness :
    _maybe_store_context (.obj [("context", .str "abc")]) none =
      .ok (some (.str "abc")) ∧
    _process_inbound_message
        (.parsed (.obj [("event", .str "willAppear"),
          ("context", .str "abc")]))
        (streamDeckExchangeInit 0) =
      ({ context := some (.str "abc"), facility := 0,
         sent := [_handle_will_appear (.str "abc") 0] }, none) := by
  constructor
  · exact (claim_C7 [("context", .str "abc")] none "abc"
      (streamDeckExchangeInit 0)).1 (by decide) (by decide)
  · have h := (claim_C7 [("event", .str "willAppear"),
      ("context", .str "abc")] none "abc" (streamDeckExchangeInit 0)).2.2.2
      (by decide) (by decide)
    simpa [streamDeckExchangeInit] using h

/-- C10: once the stored session context is established (non-`none`), no
operation of the exchange resets it: processing any single message, any
run of the receive loop, and `notify_state_change` all leave the context
established. -/
theorem claim_C10 (s : ExchangeState) (h : s.context.isSome) :
    (∀ m : WireMessage,
      ((_process_inbound_message m s).1).context.isSome) ∧
    (∀ messages : List WireMessage,
      (_message_receive_loop messages s).context.isSome) ∧
    ((notify_state_change s).1).context.isSome := by
  refine ⟨fun m => process_preserves_context m s h,
    fun messages => loop_preserves_context messages s h,
    process_preserves_context (.parsed willAppearLiteral) s h⟩

theorem claim_C10_witness :
    ((_process_inbound_message .malformed
      { context := some (.str "abc"), facility := 0, sent := [] }).1).context.isSome :=
  (claim_C10 { context := some (.str "abc"), facility := 0, sent := [] }
    (by decide)).1 .malformed

theorem claim_C9_witness :
    handle_event (.obj [("context", .str "c")]) (.str "c") 0 =
      .error (.keyError "event") ∧
    ((_process_inbound_message (.parsed (.obj [("context", .str "c")]))
        (streamDeckExchangeInit 0)).2.isSome ∧
     (_process_inbound_message (.parsed (.obj [("context", .str "c")]))
        (streamDeckExchangeInit 0)).1.sent = (streamDeckExchangeInit 0).sent) :=
  claim_C9 [("context", .str "c")] (.str "c") 0 (streamDeckExchangeInit 0)
    (by decide)

end BTPlugin
